import Mathlib

/-!
# Verification of the rawviewer native wrapper layer

Shallow embedding of `src/android/app/src/main/cpp/wrapper.cpp` and
`src/windows/native_lib/wrapper.cpp`.  Both files are thin wrappers around
the external LibRaw codec.  The codec itself is not part of the repository;
it is modelled here as an oracle structure (`RawCodec`) describing, for one
fixed input source, the outcome of every codec operation the wrappers
invoke.  Heap buffers are modelled as `Option (List Nat)` (a `none`
models the C null pointer, `some bytes` an allocated buffer holding those
bytes); `malloc` success is an oracle `allocOk : Nat → Bool` indexed by the
requested size.
-/

/-- LibRaw constant `LIBRAW_IMAGE_JPEG = 1`
(documented in windows wrapper.cpp lines 59-60). -/
def LIBRAW_IMAGE_JPEG : Nat := 1

/-- LibRaw constant `LIBRAW_IMAGE_BITMAP = 2`
(documented in windows wrapper.cpp lines 59-60). -/
def LIBRAW_IMAGE_BITMAP : Nat := 2

/-- `libraw_processed_image_t`: the codec's materialized payload.
`data_size` is the length of `data`, so it is derived rather than stored. -/
structure ProcessedImage where
  itype : Nat
  width : Nat
  height : Nat
  data : List Nat
deriving DecidableEq, Repr

/-- `data_size` field of `libraw_processed_image_t`: number of payload bytes. -/
def ProcessedImage.data_size (p : ProcessedImage) : Nat := p.data.length

/-- The `imgdata.params` fields the wrappers assign
(`use_camera_wb`, `half_size`, `output_bps`, `output_color`). -/
structure Params where
  use_camera_wb : Nat
  half_size : Nat
  output_bps : Nat
  output_color : Nat
deriving DecidableEq, Repr

/-- LibRaw default processing parameters (`use_camera_wb = 0`,
`half_size = 0`, `output_bps = 8`, `output_color = 1` i.e. sRGB),
in effect for every field a wrapper does not assign. -/
def default_params : Params :=
  { use_camera_wb := 0, half_size := 0, output_bps := 8, output_color := 1 }

/-- Oracle model of the LibRaw codec opened on one fixed input source.
Each field records the outcome of one codec operation on that source:
`openOk` for `open_file`/`open_buffer`, `unpackThumbOk` for `unpack_thumb`,
`memThumb` for `dcraw_make_mem_thumb` (`none` models a null return),
`unpackOk` for `unpack`, `processOk` for `dcraw_process`, `memImageOk`
for `dcraw_make_mem_image` returning non-null, `fullWidth`/`fullHeight`
for the full-resolution rendered dimensions, `renderedByte p k` for byte
`k` of the rendered pixel buffer under parameters `p`, and `allocOk n`
for whether `malloc n` succeeds. -/
structure RawCodec where
  openOk : Bool
  unpackThumbOk : Bool
  memThumb : Option ProcessedImage
  unpackOk : Bool
  processOk : Bool
  memImageOk : Bool
  fullWidth : Nat
  fullHeight : Nat
  renderedByte : Params → Nat → Nat
  allocOk : Nat → Bool

/-- Modelled from the spec: the external codec's rendered output dimension
under half-size decoding ("renders at half the sensor's native resolution",
glossary; "half-resolution dimensions ... within the codec's half-size
rounding behavior", §8).  LibRaw rounds half-size dimensions up. -/
def renderedDim (half_size full : Nat) : Nat :=
  if half_size ≠ 0 then (full + 1) / 2 else full

/-- Modelled from the spec: `dcraw_make_mem_image` — the external codec's
materialize-rendered-image operation.  Returns a 3-channel 8-bit bitmap
(`LIBRAW_IMAGE_BITMAP`) whose dimensions follow the half-size toggle and
whose `data_size` is width × height × 3 (§3 invariant: "byte-count =
width × height × 3 for bitmap payloads"); returns null (`none`) when
materialization fails. -/
def dcraw_make_mem_image (c : RawCodec) (p : Params) : Option ProcessedImage :=
  if c.memImageOk then
    let w := renderedDim p.half_size c.fullWidth
    let h := renderedDim p.half_size c.fullHeight
    some { itype := LIBRAW_IMAGE_BITMAP, width := w, height := h,
           data := (List.range (w * h * 3)).map (c.renderedByte p) }
  else none

/-- One iteration of the shared conversion loop: the three output bytes the
loop writes for pixel `i` — `dst[3i] = src[3i+2]`, `dst[3i+1] = src[3i+1]`,
`dst[3i+2] = src[3i]` (wrapper.cpp android 90-94 / 166-170, windows
104-108 / 160-164). -/
def bgrTriple (src : List Nat) (i : Nat) : List Nat :=
  [src.getD (3 * i + 2) 0, src.getD (3 * i + 1) 0, src.getD (3 * i + 0) 0]

/-- The full RGB→BGR conversion loop over `total_pixels` pixels, producing
the output buffer contents. -/
def convertBGR (src : List Nat) (total_pixels : Nat) : List Nat :=
  (List.range total_pixels).flatMap (bgrTriple src)

/-- The `ThumbnailResult` C struct.  The `data` pointer together with the
buffer it points to is modelled as `Option (List Nat)`. -/
structure ThumbnailResult where
  data : Option (List Nat)
  size : Nat
  width : Nat
  height : Nat
  format : Nat
deriving DecidableEq, Repr

/-- The `ImageResult` C struct. -/
structure ImageResult where
  data : Option (List Nat)
  size : Nat
  width : Nat
  height : Nat
deriving DecidableEq, Repr

/-- The zero-initialized `ThumbnailResult` `{nullptr, 0, 0, 0, 0}`. -/
def zeroThumb : ThumbnailResult := ⟨none, 0, 0, 0, 0⟩

/-- The zero-initialized `ImageResult` `{nullptr, 0, 0, 0}`. -/
def zeroImage : ImageResult := ⟨none, 0, 0, 0⟩

/-- `free_buffer` (identical in both wrapper files): the heap is modelled as
the list of live allocation ids; a non-null buffer is freed (erased), a null
buffer leaves the heap untouched.  The function is total, so the null case
cannot fault. -/
def free_buffer (buffer : Option Nat) (heap : List Nat) : List Nat :=
  match buffer with
  | some b => heap.erase b
  | none => heap

-- ### Shared wrapper building blocks (textually identical in both files)

/-- The fixed parameters the thumbnail fallback path assigns
(`use_camera_wb = 1`, `half_size = 1`, `output_bps = 8`; android
wrapper.cpp 69-71, windows 79-81).  `output_color` keeps its default. -/
def fallback_params : Params :=
  { default_params with use_camera_wb := 1, half_size := 1, output_bps := 8 }

/-- The parameters `process_preview`/`get_preview` assign
(`use_camera_wb = 1`, `half_size` from the argument, `output_bps = 8`,
`output_color = 1`; android wrapper.cpp 138-141, windows 125-128). -/
def preview_params (half_size : Nat) : Params :=
  { default_params with
    use_camera_wb := 1
    half_size := half_size
    output_bps := 8
    output_color := 1 }

/-- Materialization of a successfully extracted embedded thumbnail
(android wrapper.cpp 45-63, windows 50-72, identical): set `size` from the
codec's `data_size`, `malloc` the buffer, `memcpy` the payload bytes
verbatim when allocation succeeded, then classify by the codec-reported
type — JPEG keeps `format = 0`, BITMAP sets `format = 1` and the
dimensions, anything else leaves the zero-initialized
`format`/`width`/`height` untouched. -/
def materialize_thumb (c : RawCodec) (thumb : ProcessedImage) : ThumbnailResult :=
  let size := thumb.data_size
  let data := if c.allocOk size then some thumb.data else none
  if thumb.itype = LIBRAW_IMAGE_JPEG then
    { data := data, size := size, width := 0, height := 0, format := 0 }
  else if thumb.itype = LIBRAW_IMAGE_BITMAP then
    { data := data
      size := size
      width := thumb.width
      height := thumb.height
      format := 1 }
  else
    { data := data, size := size, width := 0, height := 0, format := 0 }

/-- The thumbnail fallback path (android wrapper.cpp 68-105, windows 75-113,
identical): assign `fallback_params`, then `unpack` → `dcraw_process` →
`dcraw_make_mem_image`; on materialization success set
`format = 1`/dimensions/`size`, `malloc` the output and run the BGR
conversion loop when allocation succeeded; any stage failing leaves the
zero-initialized result. -/
def thumbnail_fallback (c : RawCodec) : ThumbnailResult :=
  if c.unpackOk then
    if c.processOk then
      match dcraw_make_mem_image c fallback_params with
      | some image =>
          { format := 1
            width := image.width
            height := image.height
            size := image.data_size
            data := if c.allocOk image.data_size then
                      some (convertBGR image.data (image.width * image.height))
                    else none }
      | none => zeroThumb
    else zeroThumb
  else zeroThumb

/-- The shared body of the preview materialization (android wrapper.cpp
153-173, windows 146-167): `dcraw_make_mem_image`, set dimensions and
`size`, `malloc`, BGR-convert when allocation succeeded. -/
def materialize_preview (c : RawCodec) (p : Params) : ImageResult :=
  match dcraw_make_mem_image c p with
  | some image =>
      { width := image.width
        height := image.height
        size := image.data_size
        data := if c.allocOk image.data_size then
                  some (convertBGR image.data (image.width * image.height))
                else none }
  | none => zeroImage

-- ### RawSource lifetime events

/-- Observable RawSource teardown events: an explicit `RawProcessor.recycle()`
call, and the C++ destruction of the stack-allocated `LibRaw RawProcessor`
at scope exit (whose destructor resets the codec state; it runs on every
return path by C++ RAII semantics, which the `*_events` functions model
explicitly). -/
inductive Event where
  | recycled
  | destructed
deriving DecidableEq, Repr

/-- RawSource state: `live` while the opened codec state exists, `reset`
once recycled or destructed. -/
inductive SrcState where
  | live
  | reset
deriving DecidableEq, Repr

/-- Both teardown events reset the codec state (`recycle()` resets it;
the destructor releases it entirely). -/
def stepEvent : SrcState → Event → SrcState
  | _, Event.recycled => SrcState.reset
  | _, Event.destructed => SrcState.reset

/-- Codec-state left after a call emitting the given event trace. -/
def finalState (t : List Event) : SrcState := t.foldl stepEvent SrcState.live

namespace Android

/-- `process_thumbnail` (android wrapper.cpp 37-106): try `unpack_thumb`
then `dcraw_make_mem_thumb`; materialize on success, otherwise (extraction
failure or null thumb) run the preview fallback. -/
def process_thumbnail (c : RawCodec) : ThumbnailResult :=
  if c.unpackThumbOk then
    match c.memThumb with
    | some thumb => materialize_thumb c thumb
    | none => thumbnail_fallback c
  else thumbnail_fallback c

/-- `get_thumbnail` (android wrapper.cpp 108-119): `open_file`, early
zero-result return on failure, else `process_thumbnail` then `recycle`. -/
def get_thumbnail (c : RawCodec) : ThumbnailResult :=
  if c.openOk then process_thumbnail c else zeroThumb

/-- `get_thumbnail_from_buffer` (android wrapper.cpp 121-132): same control
flow with `open_buffer` in place of `open_file`. -/
def get_thumbnail_from_buffer (c : RawCodec) : ThumbnailResult :=
  if c.openOk then process_thumbnail c else zeroThumb

/-- `process_preview` (android wrapper.cpp 134-176): assign
`preview_params`, `unpack` → `dcraw_process` (each failure returns the zero
result), then materialize and BGR-convert. -/
def process_preview (c : RawCodec) (half_size : Nat) : ImageResult :=
  if ¬ c.unpackOk then zeroImage
  else if ¬ c.processOk then zeroImage
  else materialize_preview c (preview_params half_size)

/-- `get_preview` (android wrapper.cpp 179-190): `open_file`, early zero
return on failure, else `process_preview` then `recycle`. -/
def get_preview (c : RawCodec) (half_size : Nat) : ImageResult :=
  if c.openOk then process_preview c half_size else zeroImage

/-- `get_preview_from_buffer` (android wrapper.cpp 192-203). -/
def get_preview_from_buffer (c : RawCodec) (half_size : Nat) : ImageResult :=
  if c.openOk then process_preview c half_size else zeroImage

/-- RawSource lifetime events of android `get_thumbnail`: on open failure
the early return destructs the local `LibRaw`; otherwise `recycle()` runs
(line 117) and then the destructor at return. -/
def get_thumbnail_events (c : RawCodec) : List Event :=
  if ¬ c.openOk then [Event.destructed]
  else [Event.recycled, Event.destructed]

/-- RawSource lifetime events of android `get_thumbnail_from_buffer`
(recycle at line 130). -/
def get_thumbnail_from_buffer_events (c : RawCodec) : List Event :=
  if ¬ c.openOk then [Event.destructed]
  else [Event.recycled, Event.destructed]

/-- RawSource lifetime events of android `get_preview` (recycle at
line 188). -/
def get_preview_events (c : RawCodec) : List Event :=
  if ¬ c.openOk then [Event.destructed]
  else [Event.recycled, Event.destructed]

/-- RawSource lifetime events of android `get_preview_from_buffer`
(recycle at line 201). -/
def get_preview_from_buffer_events (c : RawCodec) : List Event :=
  if ¬ c.openOk then [Event.destructed]
  else [Event.recycled, Event.destructed]

end Android

namespace Windows

/-- `get_thumbnail` (windows wrapper.cpp 37-117): `open_file` with early
zero return, embedded-thumbnail attempt with early return on success
(after `recycle`, line 70), else the shared fallback (then `recycle`,
line 115). -/
def get_thumbnail (c : RawCodec) : ThumbnailResult :=
  if ¬ c.openOk then zeroThumb
  else if c.unpackThumbOk then
    match c.memThumb with
    | some thumb => materialize_thumb c thumb
    | none => thumbnail_fallback c
  else thumbnail_fallback c

/-- `get_preview` (windows wrapper.cpp 120-171): assign `preview_params`
(before `open_file` in this file; open success is independent of the
processing parameters), then open → `unpack` → `dcraw_process` with zero
return and `recycle` on each failure, then materialize and BGR-convert. -/
def get_preview (c : RawCodec) (half_size : Nat) : ImageResult :=
  if ¬ c.openOk then zeroImage
  else if ¬ c.unpackOk then zeroImage
  else if ¬ c.processOk then zeroImage
  else materialize_preview c (preview_params half_size)

/-- RawSource lifetime events of windows `get_thumbnail`: open-failure
early return destructs only; the embedded-success early return calls
`recycle()` (line 70); the fallback path calls `recycle()` (line 115). -/
def get_thumbnail_events (c : RawCodec) : List Event :=
  if ¬ c.openOk then [Event.destructed]
  else if c.unpackThumbOk ∧ c.memThumb.isSome then [Event.recycled, Event.destructed]
  else [Event.recycled, Event.destructed]

/-- RawSource lifetime events of windows `get_preview`: open-failure early
return destructs only; the `unpack` / `dcraw_process` failure returns call
`recycle()` (lines 135, 141), as does the tail of the function (line 169). -/
def get_preview_events (c : RawCodec) : List Event :=
  if ¬ c.openOk then [Event.destructed]
  else if ¬ c.unpackOk then [Event.recycled, Event.destructed]
  else if ¬ c.processOk then [Event.recycled, Event.destructed]
  else [Event.recycled, Event.destructed]

end Windows

-- ### Derived views of the codec model and concrete codec instances

/-- The byte contents of the codec's rendered pixel buffer under parameters
`p` (the `src` the conversion loops read from), `[]` when materialization
fails. -/
def renderedData (c : RawCodec) (p : Params) : List Nat :=
  match dcraw_make_mem_image c p with
  | some image => image.data
  | none => []

/-- The codec-reported `data_size` of the rendered image under parameters
`p` (0 when materialization fails). -/
def renderedSize (c : RawCodec) (p : Params) : Nat := (renderedData c p).length

/-- A concrete codec model: the source opens, it has no embedded thumbnail,
renders a 2×2 full-resolution image whose byte `k` has value `k`, and every
allocation succeeds. -/
def demo_codec : RawCodec :=
  { openOk := true
    unpackThumbOk := false
    memThumb := none
    unpackOk := true
    processOk := true
    memImageOk := true
    fullWidth := 2
    fullHeight := 2
    renderedByte := fun _ k => k
    allocOk := fun _ => true }

/-- A three-byte embedded payload the codec reports as JPEG-typed. -/
def demo_thumb : ProcessedImage :=
  { itype := LIBRAW_IMAGE_JPEG, width := 0, height := 0, data := [9, 8, 7] }

/-- `demo_codec` with the embedded JPEG thumbnail `demo_thumb`. -/
def demo_codec_jpeg : RawCodec :=
  { demo_codec with unpackThumbOk := true, memThumb := some demo_thumb }

/-- A payload whose codec-reported type is neither JPEG (1) nor bitmap (2). -/
def demo_thumb_unknown : ProcessedImage :=
  { itype := 7, width := 3, height := 1, data := [1, 2, 3] }

/-- `demo_codec` with an embedded thumbnail of unknown type. -/
def demo_codec_unknown : RawCodec :=
  { demo_codec with unpackThumbOk := true, memThumb := some demo_thumb_unknown }

/-- `demo_codec_jpeg` with every allocation failing. -/
def demo_codec_oom : RawCodec :=
  { demo_codec_jpeg with allocOk := fun _ => false }

/-- `demo_codec` with a source that fails to open. -/
def demo_codec_closed : RawCodec :=
  { demo_codec with openOk := false }

/-- `demo_codec` with sensor-data unpacking failing. -/
def demo_codec_nounpack : RawCodec :=
  { demo_codec with unpackOk := false }
-- ### Basic facts about the conversion loop

theorem convertBGR_zero (src : List Nat) : convertBGR src 0 = [] := rfl

theorem convertBGR_succ (src : List Nat) (n : Nat) :
    convertBGR src (n + 1) = convertBGR src n ++ bgrTriple src n := by
  unfold convertBGR
  rw [List.range_succ, List.flatMap_append]
  simp [List.flatMap]

theorem convertBGR_length (src : List Nat) (n : Nat) :
    (convertBGR src n).length = 3 * n := by
  induction n with
  | zero => rfl
  | succ k ih =>
      rw [convertBGR_succ, List.length_append, ih, bgrTriple]
      simp
      omega

theorem convertBGR_getD (src : List Nat) (n i j : Nat) (hi : i < n) (hj : j < 3) :
    (convertBGR src n).getD (3 * i + j) 0 = (bgrTriple src i).getD j 0 := by
  induction n with
  | zero => omega
  | succ k ih =>
      rw [convertBGR_succ]
      rcases Nat.lt_or_ge i k with h | h
      · rw [List.getD_append]
        · exact ih h
        · rw [convertBGR_length]; omega
      · have hik : i = k := by omega
        subst hik
        rw [List.getD_append_right]
        · rw [convertBGR_length]
          congr 1
          omega
        · rw [convertBGR_length]; omega


/-- Per-pixel form of the conversion loop's effect: output pixel `i` holds
the source pixel's bytes in reversed channel order. -/
theorem convertBGR_pixel (src : List Nat) (n i : Nat) (hi : i < n) :
    (convertBGR src n).getD (3 * i + 0) 0 = src.getD (3 * i + 2) 0 ∧
    (convertBGR src n).getD (3 * i + 1) 0 = src.getD (3 * i + 1) 0 ∧
    (convertBGR src n).getD (3 * i + 2) 0 = src.getD (3 * i + 0) 0 := by
  refine ⟨?_, ?_, ?_⟩
  · have h := convertBGR_getD src n i 0 hi (by omega)
    simpa [bgrTriple] using h
  · have h := convertBGR_getD src n i 1 hi (by omega)
    simpa [bgrTriple] using h
  · have h := convertBGR_getD src n i 2 hi (by omega)
    simpa [bgrTriple] using h

-- ### Characterization of the embedded branches

theorem dcraw_make_mem_image_eq (c : RawCodec) (p : Params)
    (h : c.memImageOk = true) :
    dcraw_make_mem_image c p =
      some { itype := LIBRAW_IMAGE_BITMAP
             width := renderedDim p.half_size c.fullWidth
             height := renderedDim p.half_size c.fullHeight
             data := (List.range (renderedDim p.half_size c.fullWidth *
                        renderedDim p.half_size c.fullHeight * 3)).map
                       (c.renderedByte p) } := by
  simp [dcraw_make_mem_image, h]

theorem renderedData_eq (c : RawCodec) (p : Params) (img : ProcessedImage)
    (h : dcraw_make_mem_image c p = some img) :
    renderedData c p = img.data := by
  simp [renderedData, h]

theorem materialize_preview_eq (c : RawCodec) (p : Params) (img : ProcessedImage)
    (h : dcraw_make_mem_image c p = some img) :
    materialize_preview c p =
      { width := img.width
        height := img.height
        size := img.data_size
        data := if c.allocOk img.data_size then
                  some (convertBGR img.data (img.width * img.height))
                else none } := by
  simp [materialize_preview, h]

theorem thumbnail_fallback_eq (c : RawCodec) (img : ProcessedImage)
    (hu : c.unpackOk = true) (hp : c.processOk = true)
    (hmk : dcraw_make_mem_image c fallback_params = some img) :
    thumbnail_fallback c =
      { format := 1
        width := img.width
        height := img.height
        size := img.data_size
        data := if c.allocOk img.data_size then
                  some (convertBGR img.data (img.width * img.height))
                else none } := by
  simp [thumbnail_fallback, hu, hp, hmk]

/-- The if-then-else the conversion branches share: when it yields a non-null
buffer, that buffer is the BGR conversion of the codec's rendered data. -/
theorem convert_branch_bgr (c : RawCodec) (img : ProcessedImage) (p : Params)
    (d : List Nat) (i : Nat)
    (hmk : dcraw_make_mem_image c p = some img)
    (hd : (if c.allocOk img.data_size then
             some (convertBGR img.data (img.width * img.height))
           else none) = some d)
    (hi : i < img.width * img.height) :
    d.getD (3 * i + 0) 0 = (renderedData c p).getD (3 * i + 2) 0 ∧
    d.getD (3 * i + 1) 0 = (renderedData c p).getD (3 * i + 1) 0 ∧
    d.getD (3 * i + 2) 0 = (renderedData c p).getD (3 * i + 0) 0 := by
  by_cases ha : c.allocOk img.data_size = true
  · rw [if_pos ha] at hd
    have hd' : d = convertBGR img.data (img.width * img.height) :=
      (Option.some.inj hd).symm
    subst hd'
    rw [renderedData_eq c p img hmk]
    exact convertBGR_pixel img.data _ i hi
  · rw [if_neg ha] at hd
    exact absurd hd (by simp)

-- ### Path-reduction lemmas

theorem process_preview_of_some (c : RawCodec) (h : Nat) (d : List Nat)
    (hd : (Android.process_preview c h).data = some d) :
    Android.process_preview c h = materialize_preview c (preview_params h) := by
  by_cases hu : c.unpackOk = true
  · by_cases hp : c.processOk = true
    · simp [Android.process_preview, hu, hp]
    · simp [Android.process_preview, hu, hp, zeroImage] at hd
  · simp [Android.process_preview, hu, zeroImage] at hd

theorem windows_get_preview_of_some (c : RawCodec) (h : Nat) (d : List Nat)
    (hd : (Windows.get_preview c h).data = some d) :
    Windows.get_preview c h = materialize_preview c (preview_params h) := by
  by_cases ho : c.openOk = true
  · by_cases hu : c.unpackOk = true
    · by_cases hp : c.processOk = true
      · simp [Windows.get_preview, ho, hu, hp]
      · simp [Windows.get_preview, ho, hu, hp, zeroImage] at hd
    · simp [Windows.get_preview, ho, hu, zeroImage] at hd
  · simp [Windows.get_preview, ho, zeroImage] at hd

theorem materialize_preview_of_some (c : RawCodec) (p : Params) (d : List Nat)
    (hd : (materialize_preview c p).data = some d) :
    ∃ img, dcraw_make_mem_image c p = some img := by
  cases hmk : dcraw_make_mem_image c p with
  | none =>
      rw [materialize_preview, hmk] at hd
      exact absurd hd (by simp [zeroImage])
  | some img => exact ⟨img, rfl⟩

theorem thumbnail_fallback_of_some (c : RawCodec) (d : List Nat)
    (hd : (thumbnail_fallback c).data = some d) :
    c.unpackOk = true ∧ c.processOk = true ∧
      ∃ img, dcraw_make_mem_image c fallback_params = some img := by
  by_cases hu : c.unpackOk = true
  · by_cases hp : c.processOk = true
    · cases hmk : dcraw_make_mem_image c fallback_params with
      | none => simp [thumbnail_fallback, hu, hp, hmk, zeroThumb] at hd
      | some img => exact ⟨hu, hp, img, rfl⟩
    · simp [thumbnail_fallback, hu, hp, zeroThumb] at hd
  · simp [thumbnail_fallback, hu, zeroThumb] at hd

theorem process_thumbnail_fallback_of_fail (c : RawCodec)
    (hfail : c.unpackThumbOk = false ∨ c.memThumb = none) :
    Android.process_thumbnail c = thumbnail_fallback c := by
  rcases hfail with h | h
  · simp [Android.process_thumbnail, h]
  · cases ht : c.unpackThumbOk with
    | false => simp [Android.process_thumbnail, ht]
    | true => simp [Android.process_thumbnail, ht, h]

theorem process_thumbnail_embedded (c : RawCodec) (thumb : ProcessedImage)
    (ht : c.unpackThumbOk = true) (hm : c.memThumb = some thumb) :
    Android.process_thumbnail c = materialize_thumb c thumb := by
  simp [Android.process_thumbnail, ht, hm]

theorem windows_get_thumbnail_embedded (c : RawCodec) (thumb : ProcessedImage)
    (ho : c.openOk = true) (ht : c.unpackThumbOk = true)
    (hm : c.memThumb = some thumb) :
    Windows.get_thumbnail c = materialize_thumb c thumb := by
  simp [Windows.get_thumbnail, ho, ht, hm]

/-- All the facts the claims need about the embedded-thumbnail
materialization. -/
theorem materialize_thumb_props (c : RawCodec) (thumb : ProcessedImage) :
    (materialize_thumb c thumb).size = thumb.data_size ∧
    (c.allocOk thumb.data_size = true →
      (materialize_thumb c thumb).data = some thumb.data) ∧
    (c.allocOk thumb.data_size = false →
      (materialize_thumb c thumb).data = none) ∧
    (thumb.itype = LIBRAW_IMAGE_JPEG →
      (materialize_thumb c thumb).format = 0 ∧
      (materialize_thumb c thumb).width = 0 ∧
      (materialize_thumb c thumb).height = 0) ∧
    (thumb.itype = LIBRAW_IMAGE_BITMAP →
      (materialize_thumb c thumb).format = 1 ∧
      (materialize_thumb c thumb).width = thumb.width ∧
      (materialize_thumb c thumb).height = thumb.height) ∧
    (thumb.itype ≠ LIBRAW_IMAGE_JPEG → thumb.itype ≠ LIBRAW_IMAGE_BITMAP →
      (materialize_thumb c thumb).format = 0 ∧
      (materialize_thumb c thumb).width = 0 ∧
      (materialize_thumb c thumb).height = 0) := by
  by_cases hj : thumb.itype = 1
  · by_cases ha : c.allocOk thumb.data_size = true <;>
      simp [materialize_thumb, LIBRAW_IMAGE_JPEG, LIBRAW_IMAGE_BITMAP, hj, ha]
  · by_cases hb : thumb.itype = 2
    · by_cases ha : c.allocOk thumb.data_size = true <;>
        simp [materialize_thumb, LIBRAW_IMAGE_JPEG, LIBRAW_IMAGE_BITMAP, hj, hb, ha]
    · by_cases ha : c.allocOk thumb.data_size = true <;>
        simp [materialize_thumb, LIBRAW_IMAGE_JPEG, LIBRAW_IMAGE_BITMAP, hj, hb, ha]

theorem materialize_preview_nomem (c : RawCodec) (p : Params)
    (hm : c.memImageOk = false) : materialize_preview c p = zeroImage := by
  simp [materialize_preview, dcraw_make_mem_image, hm]

theorem renderedSize_eq (c : RawCodec) (p : Params) (img : ProcessedImage)
    (h : dcraw_make_mem_image c p = some img) :
    renderedSize c p = img.data_size := by
  simp [renderedSize, renderedData_eq c p img h, ProcessedImage.data_size]

theorem android_preview_stage_zero (c : RawCodec) (h : Nat)
    (hstage : c.unpackOk = false ∨ c.processOk = false ∨ c.memImageOk = false) :
    Android.process_preview c h = zeroImage := by
  by_cases hu : c.unpackOk = true
  · by_cases hp : c.processOk = true
    · have hm : c.memImageOk = false := by
        rcases hstage with hx | hx | hx
        · exact absurd hu (by simp [hx])
        · exact absurd hp (by simp [hx])
        · exact hx
      simp [Android.process_preview, hu, hp, materialize_preview_nomem c _ hm]
    · simp [Android.process_preview, hu, hp]
  · simp [Android.process_preview, hu]

theorem windows_preview_stage_zero (c : RawCodec) (h : Nat)
    (hstage : c.unpackOk = false ∨ c.processOk = false ∨ c.memImageOk = false) :
    Windows.get_preview c h = zeroImage := by
  by_cases ho : c.openOk = true
  · by_cases hu : c.unpackOk = true
    · by_cases hp : c.processOk = true
      · have hm : c.memImageOk = false := by
          rcases hstage with hx | hx | hx
          · exact absurd hu (by simp [hx])
          · exact absurd hp (by simp [hx])
          · exact hx
        simp [Windows.get_preview, ho, hu, hp, materialize_preview_nomem c _ hm]
      · simp [Windows.get_preview, ho, hu, hp]
    · simp [Windows.get_preview, ho, hu]
  · simp [Windows.get_preview, ho]

-- ### Claim theorems

/-- C1: Every bitmap output of the thumbnail fallback path and of
`get_preview` (android `process_preview`, windows `get_preview`) has, for
every pixel index `i` below width × height, its three bytes at offset `3i`
equal to the codec's native bytes at offsets `3i+2`, `3i+1`, `3i` — the
channel order `[c0, c1, c2]` becomes `[c2, c1, c0]`, with exact byte
equality for all pixels, for every codec model (hence independent of image
size and content). -/
theorem bitmap_outputs_channel_reversed (c : RawCodec) (half_size i : Nat) :
    (∀ d, (Android.process_preview c half_size).data = some d →
        i < (Android.process_preview c half_size).width *
              (Android.process_preview c half_size).height →
        d.getD (3 * i + 0) 0 =
            (renderedData c (preview_params half_size)).getD (3 * i + 2) 0 ∧
        d.getD (3 * i + 1) 0 =
            (renderedData c (preview_params half_size)).getD (3 * i + 1) 0 ∧
        d.getD (3 * i + 2) 0 =
            (renderedData c (preview_params half_size)).getD (3 * i + 0) 0) ∧
    (∀ d, (Windows.get_preview c half_size).data = some d →
        i < (Windows.get_preview c half_size).width *
              (Windows.get_preview c half_size).height →
        d.getD (3 * i + 0) 0 =
            (renderedData c (preview_params half_size)).getD (3 * i + 2) 0 ∧
        d.getD (3 * i + 1) 0 =
            (renderedData c (preview_params half_size)).getD (3 * i + 1) 0 ∧
        d.getD (3 * i + 2) 0 =
            (renderedData c (preview_params half_size)).getD (3 * i + 0) 0) ∧
    (∀ d, (thumbnail_fallback c).data = some d →
        i < (thumbnail_fallback c).width * (thumbnail_fallback c).height →
        d.getD (3 * i + 0) 0 = (renderedData c fallback_params).getD (3 * i + 2) 0 ∧
        d.getD (3 * i + 1) 0 = (renderedData c fallback_params).getD (3 * i + 1) 0 ∧
        d.getD (3 * i + 2) 0 = (renderedData c fallback_params).getD (3 * i + 0) 0) := by
  refine ⟨?_, ?_, ?_⟩
  · intro d hd hi
    have he := process_preview_of_some c half_size d hd
    rw [he] at hd hi
    obtain ⟨img, hmk⟩ := materialize_preview_of_some c _ d hd
    rw [materialize_preview_eq c _ img hmk] at hd hi
    exact convert_branch_bgr c img _ d i hmk hd hi
  · intro d hd hi
    have he := windows_get_preview_of_some c half_size d hd
    rw [he] at hd hi
    obtain ⟨img, hmk⟩ := materialize_preview_of_some c _ d hd
    rw [materialize_preview_eq c _ img hmk] at hd hi
    exact convert_branch_bgr c img _ d i hmk hd hi
  · intro d hd hi
    obtain ⟨hu, hp, img, hmk⟩ := thumbnail_fallback_of_some c d hd
    rw [thumbnail_fallback_eq c img hu hp hmk] at hd hi
    exact convert_branch_bgr c img _ d i hmk hd hi

/-- C2: When embedded-thumbnail extraction fails (`unpack_thumb` error or a
null `dcraw_make_mem_thumb`), `get_thumbnail` falls back to full-preview
generation configured with camera white balance, half-size output and 8-bit
depth, and on render success returns a RawBitmap-tagged result whose
byte-count is width × height × 3 and whose dimensions are the
half-resolution rendered dimensions. -/
theorem thumbnail_fallback_structure (c : RawCodec)
    (ho : c.openOk = true)
    (hfail : c.unpackThumbOk = false ∨ c.memThumb = none)
    (hu : c.unpackOk = true) (hp : c.processOk = true)
    (hm : c.memImageOk = true) :
    Android.get_thumbnail c = thumbnail_fallback c ∧
    (Android.get_thumbnail c).format = 1 ∧
    (Android.get_thumbnail c).size =
      (Android.get_thumbnail c).width * (Android.get_thumbnail c).height * 3 ∧
    (Android.get_thumbnail c).width = (c.fullWidth + 1) / 2 ∧
    (Android.get_thumbnail c).height = (c.fullHeight + 1) / 2 ∧
    fallback_params.use_camera_wb = 1 ∧
    fallback_params.half_size = 1 ∧
    fallback_params.output_bps = 8 := by
  have hg : Android.get_thumbnail c = thumbnail_fallback c := by
    rw [Android.get_thumbnail, if_pos ho,
        process_thumbnail_fallback_of_fail c hfail]
  have hmk := dcraw_make_mem_image_eq c fallback_params hm
  rw [hg, thumbnail_fallback_eq c _ hu hp hmk]
  refine ⟨rfl, rfl, ?_, ?_, ?_, rfl, rfl, rfl⟩
  · simp [ProcessedImage.data_size]
  · simp [renderedDim, fallback_params, default_params]
  · simp [renderedDim, fallback_params, default_params]

/-- C3: When an embedded thumbnail is successfully extracted,
`get_thumbnail` copies the codec's payload bytes verbatim into the freshly
allocated buffer, sets the byte-count to the codec-reported payload size,
tags the format after the codec-reported payload type, reports
width = height = 0 for Encoded (JPEG) payloads and populates the
dimensions only for RawBitmap payloads; the windows entry point returns
the same result. -/
theorem embedded_thumbnail_verbatim (c : RawCodec) (thumb : ProcessedImage)
    (ht : c.unpackThumbOk = true) (hm : c.memThumb = some thumb) :
    (Android.process_thumbnail c).size = thumb.data_size ∧
    (c.allocOk thumb.data_size = true →
      (Android.process_thumbnail c).data = some thumb.data) ∧
    (thumb.itype = LIBRAW_IMAGE_JPEG →
      (Android.process_thumbnail c).format = 0 ∧
      (Android.process_thumbnail c).width = 0 ∧
      (Android.process_thumbnail c).height = 0) ∧
    (thumb.itype = LIBRAW_IMAGE_BITMAP →
      (Android.process_thumbnail c).format = 1 ∧
      (Android.process_thumbnail c).width = thumb.width ∧
      (Android.process_thumbnail c).height = thumb.height) ∧
    (c.openOk = true → Windows.get_thumbnail c = Android.process_thumbnail c) := by
  rw [process_thumbnail_embedded c thumb ht hm]
  obtain ⟨h1, h2, h3, h4, h5, h6⟩ := materialize_thumb_props c thumb
  exact ⟨h1, h2, h4, h5,
    fun ho => windows_get_thumbnail_embedded c thumb ho ht hm⟩

/-- C4: When opening the source fails, every decode operation of both
wrapper files returns the all-zero descriptor (null data, zero size, zero
dimensions, zero format) with no buffer allocated; and for `get_preview`,
a later stage (unpack, render, materialize) failing likewise returns the
null/zero result with no fallback attempted. -/
theorem failure_paths_all_zero (c : RawCodec) (half_size : Nat) :
    (c.openOk = false →
      Android.get_thumbnail c = zeroThumb ∧
      Android.get_thumbnail_from_buffer c = zeroThumb ∧
      Android.get_preview c half_size = zeroImage ∧
      Android.get_preview_from_buffer c half_size = zeroImage ∧
      Windows.get_thumbnail c = zeroThumb ∧
      Windows.get_preview c half_size = zeroImage) ∧
    ((c.unpackOk = false ∨ c.processOk = false ∨ c.memImageOk = false) →
      Android.get_preview c half_size = zeroImage ∧
      Windows.get_preview c half_size = zeroImage) := by
  constructor
  · intro ho
    refine ⟨?_, ?_, ?_, ?_, ?_, ?_⟩ <;>
      simp [Android.get_thumbnail, Android.get_thumbnail_from_buffer,
            Android.get_preview, Android.get_preview_from_buffer,
            Windows.get_thumbnail, Windows.get_preview, ho]
  · intro hstage
    refine ⟨?_, windows_preview_stage_zero c half_size hstage⟩
    by_cases ho : c.openOk = true <;>
      simp [Android.get_preview, ho, android_preview_stage_zero c half_size hstage]

/-- C5: Every decode call leaves the RawSource reset on every exit path:
on opened paths an explicit `recycle()` runs before return, and on the
open-failure early return the stack-allocated `LibRaw`'s destructor (which
resets the codec state) runs as part of returning, so no codec state
survives a completed call, for every codec model. -/
theorem raw_source_always_released (c : RawCodec) :
    finalState (Android.get_thumbnail_events c) = SrcState.reset ∧
    finalState (Android.get_thumbnail_from_buffer_events c) = SrcState.reset ∧
    finalState (Android.get_preview_events c) = SrcState.reset ∧
    finalState (Android.get_preview_from_buffer_events c) = SrcState.reset ∧
    finalState (Windows.get_thumbnail_events c) = SrcState.reset ∧
    finalState (Windows.get_preview_events c) = SrcState.reset := by
  by_cases ho : c.openOk = true <;>
    simp [Android.get_thumbnail_events, Android.get_thumbnail_from_buffer_events,
          Android.get_preview_events, Android.get_preview_from_buffer_events,
          Windows.get_thumbnail_events, Windows.get_preview_events,
          finalState, stepEvent, ho]

/-- C6: When the codec produces a payload but allocating the output buffer
fails, the returned result carries the payload's byte-count with a null
data pointer (no bytes copied or converted), a partial-failure shape
distinct from the all-zero descriptor whenever the payload is non-empty:
for the embedded-thumbnail path, the android/windows preview paths and the
thumbnail fallback path. -/
theorem alloc_failure_partial_result (c : RawCodec) (thumb : ProcessedImage)
    (half_size : Nat) :
    (c.unpackThumbOk = true → c.memThumb = some thumb →
     c.allocOk thumb.data_size = false →
      (Android.process_thumbnail c).data = none ∧
      (Android.process_thumbnail c).size = thumb.data_size ∧
      (0 < thumb.data_size → Android.process_thumbnail c ≠ zeroThumb)) ∧
    (c.unpackOk = true → c.processOk = true → c.memImageOk = true →
     c.allocOk (renderedSize c (preview_params half_size)) = false →
      (Android.process_preview c half_size).data = none ∧
      (Android.process_preview c half_size).size =
        renderedSize c (preview_params half_size) ∧
      (0 < renderedSize c (preview_params half_size) →
        Android.process_preview c half_size ≠ zeroImage)) ∧
    (c.openOk = true → c.unpackOk = true → c.processOk = true →
     c.memImageOk = true →
     c.allocOk (renderedSize c (preview_params half_size)) = false →
      (Windows.get_preview c half_size).data = none ∧
      (Windows.get_preview c half_size).size =
        renderedSize c (preview_params half_size)) ∧
    (c.unpackOk = true → c.processOk = true → c.memImageOk = true →
     c.allocOk (renderedSize c fallback_params) = false →
      (thumbnail_fallback c).data = none ∧
      (thumbnail_fallback c).size = renderedSize c fallback_params) := by
  refine ⟨?_, ?_, ?_, ?_⟩
  · intro ht hm ha
    rw [process_thumbnail_embedded c thumb ht hm]
    obtain ⟨h1, h2, h3, h4, h5, h6⟩ := materialize_thumb_props c thumb
    refine ⟨h3 ha, h1, ?_⟩
    intro hpos heq
    have hz : (materialize_thumb c thumb).size = 0 := by
      rw [heq]; rfl
    rw [h1] at hz
    omega
  · intro hu hp hm ha
    have hmk := dcraw_make_mem_image_eq c (preview_params half_size) hm
    have hpp : Android.process_preview c half_size =
        materialize_preview c (preview_params half_size) := by
      simp [Android.process_preview, hu, hp]
    rw [renderedSize_eq c _ _ hmk] at ha ⊢
    rw [hpp, materialize_preview_eq c _ _ hmk]
    refine ⟨by simp [ha], rfl, ?_⟩
    intro hpos heq
    have hz := congrArg ImageResult.size heq
    simp [zeroImage] at hz
    omega
  · intro ho hu hp hm ha
    have hmk := dcraw_make_mem_image_eq c (preview_params half_size) hm
    have hpp : Windows.get_preview c half_size =
        materialize_preview c (preview_params half_size) := by
      simp [Windows.get_preview, ho, hu, hp]
    rw [renderedSize_eq c _ _ hmk] at ha ⊢
    rw [hpp, materialize_preview_eq c _ _ hmk]
    exact ⟨by simp [ha], rfl⟩
  · intro hu hp hm ha
    have hmk := dcraw_make_mem_image_eq c fallback_params hm
    rw [renderedSize_eq c _ _ hmk] at ha ⊢
    rw [thumbnail_fallback_eq c _ hu hp hmk]
    exact ⟨by simp [ha], rfl⟩

/-- C7: `free_buffer` applied to a null pointer is a safe no-op: the heap is
unchanged and, the function being total, no fault occurs, for every heap. -/
theorem free_buffer_null_noop (heap : List Nat) :
    free_buffer none heap = heap := rfl

/-- C8: Structural determinism — two `get_preview` calls with `halfSize = 1`
on the same input (the same codec model, the codec being deterministic by
assumption, which the functional embedding makes intrinsic) yield results
with identical width, height and byte-count. -/
theorem preview_structural_determinism (c₁ c₂ : RawCodec) (h : c₁ = c₂) :
    (Android.get_preview c₁ 1).width = (Android.get_preview c₂ 1).width ∧
    (Android.get_preview c₁ 1).height = (Android.get_preview c₂ 1).height ∧
    (Android.get_preview c₁ 1).size = (Android.get_preview c₂ 1).size := by
  subst h
  exact ⟨rfl, rfl, rfl⟩

/-- C9: Monotonic resolution scaling — for every input, `get_preview` with
`halfSize = 0` yields width and height each at least those of the
`halfSize = 1` call on the same input. -/
theorem preview_halfsize_monotone (c : RawCodec) :
    (Android.get_preview c 1).width ≤ (Android.get_preview c 0).width ∧
    (Android.get_preview c 1).height ≤ (Android.get_preview c 0).height := by
  by_cases ho : c.openOk = true
  · by_cases hu : c.unpackOk = true
    · by_cases hp : c.processOk = true
      · by_cases hm : c.memImageOk = true
        · have h1 := dcraw_make_mem_image_eq c (preview_params 1) hm
          have h0 := dcraw_make_mem_image_eq c (preview_params 0) hm
          have e1 : Android.get_preview c 1 =
              materialize_preview c (preview_params 1) := by
            simp [Android.get_preview, Android.process_preview, ho, hu, hp]
          have e0 : Android.get_preview c 0 =
              materialize_preview c (preview_params 0) := by
            simp [Android.get_preview, Android.process_preview, ho, hu, hp]
          rw [e1, e0, materialize_preview_eq c _ _ h1,
              materialize_preview_eq c _ _ h0]
          constructor <;>
            · simp only [renderedDim, preview_params, default_params]
              norm_num
              omega
        · have hm' : c.memImageOk = false := by simpa using hm
          simp [Android.get_preview, Android.process_preview, ho, hu, hp,
                materialize_preview_nomem c _ hm']
      · simp [Android.get_preview, Android.process_preview, ho, hu, hp]
    · simp [Android.get_preview, Android.process_preview, ho, hu]
  · simp [Android.get_preview, ho]

/-- C10: When the codec reports an embedded thumbnail of a type that is
neither JPEG nor bitmap, `get_thumbnail` still returns the copied payload
bytes with the format tag left at 0 (Encoded) and width = height = 0: the
unknown type is silently classified as Encoded rather than rejected, on
both platforms. -/
theorem unknown_thumb_type_treated_encoded (c : RawCodec)
    (thumb : ProcessedImage)
    (ht : c.unpackThumbOk = true) (hm : c.memThumb = some thumb)
    (hj : thumb.itype ≠ LIBRAW_IMAGE_JPEG)
    (hb : thumb.itype ≠ LIBRAW_IMAGE_BITMAP) :
    (Android.process_thumbnail c).format = 0 ∧
    (Android.process_thumbnail c).width = 0 ∧
    (Android.process_thumbnail c).height = 0 ∧
    (Android.process_thumbnail c).size = thumb.data_size ∧
    (c.allocOk thumb.data_size = true →
      (Android.process_thumbnail c).data = some thumb.data) ∧
    (c.openOk = true → Windows.get_thumbnail c = Android.process_thumbnail c) := by
  rw [process_thumbnail_embedded c thumb ht hm]
  obtain ⟨h1, h2, h3, h4, h5, h6⟩ := materialize_thumb_props c thumb
  obtain ⟨f0, w0, hh0⟩ := h6 hj hb
  exact ⟨f0, w0, hh0, h1, h2,
    fun ho => windows_get_thumbnail_embedded c thumb ho ht hm⟩

-- ### Witnesses

theorem bitmap_outputs_channel_reversed_witness :
    ([2, 1, 0].getD 0 0 = (renderedData demo_codec (preview_params 1)).getD 2 0 ∧
     [2, 1, 0].getD 1 0 = (renderedData demo_codec (preview_params 1)).getD 1 0 ∧
     [2, 1, 0].getD 2 0 = (renderedData demo_codec (preview_params 1)).getD 0 0) ∧
    ([2, 1, 0].getD 0 0 = (renderedData demo_codec (preview_params 1)).getD 2 0 ∧
     [2, 1, 0].getD 1 0 = (renderedData demo_codec (preview_params 1)).getD 1 0 ∧
     [2, 1, 0].getD 2 0 = (renderedData demo_codec (preview_params 1)).getD 0 0) ∧
    ([2, 1, 0].getD 0 0 = (renderedData demo_codec fallback_params).getD 2 0 ∧
     [2, 1, 0].getD 1 0 = (renderedData demo_codec fallback_params).getD 1 0 ∧
     [2, 1, 0].getD 2 0 = (renderedData demo_codec fallback_params).getD 0 0) :=
  ⟨(bitmap_outputs_channel_reversed demo_codec 1 0).1 [2, 1, 0]
      (by decide) (by decide),
   (bitmap_outputs_channel_reversed demo_codec 1 0).2.1 [2, 1, 0]
      (by decide) (by decide),
   (bitmap_outputs_channel_reversed demo_codec 1 0).2.2 [2, 1, 0]
      (by decide) (by decide)⟩

theorem thumbnail_fallback_structure_witness :
    Android.get_thumbnail demo_codec = thumbnail_fallback demo_codec ∧
    (Android.get_thumbnail demo_codec).format = 1 ∧
    (Android.get_thumbnail demo_codec).size =
      (Android.get_thumbnail demo_codec).width *
        (Android.get_thumbnail demo_codec).height * 3 ∧
    (Android.get_thumbnail demo_codec).width = (demo_codec.fullWidth + 1) / 2 ∧
    (Android.get_thumbnail demo_codec).height = (demo_codec.fullHeight + 1) / 2 ∧
    fallback_params.use_camera_wb = 1 ∧
    fallback_params.half_size = 1 ∧
    fallback_params.output_bps = 8 :=
  thumbnail_fallback_structure demo_codec rfl (Or.inl rfl) rfl rfl rfl

theorem embedded_thumbnail_verbatim_witness :
    (Android.process_thumbnail demo_codec_jpeg).size = demo_thumb.data_size ∧
    (demo_codec_jpeg.allocOk demo_thumb.data_size = true →
      (Android.process_thumbnail demo_codec_jpeg).data = some demo_thumb.data) ∧
    (demo_thumb.itype = LIBRAW_IMAGE_JPEG →
      (Android.process_thumbnail demo_codec_jpeg).format = 0 ∧
      (Android.process_thumbnail demo_codec_jpeg).width = 0 ∧
      (Android.process_thumbnail demo_codec_jpeg).height = 0) ∧
    (demo_thumb.itype = LIBRAW_IMAGE_BITMAP →
      (Android.process_thumbnail demo_codec_jpeg).format = 1 ∧
      (Android.process_thumbnail demo_codec_jpeg).width = demo_thumb.width ∧
      (Android.process_thumbnail demo_codec_jpeg).height = demo_thumb.height) ∧
    (demo_codec_jpeg.openOk = true →
      Windows.get_thumbnail demo_codec_jpeg =
        Android.process_thumbnail demo_codec_jpeg) :=
  embedded_thumbnail_verbatim demo_codec_jpeg demo_thumb rfl rfl

theorem failure_paths_all_zero_witness :
    (Android.get_thumbnail demo_codec_closed = zeroThumb ∧
     Android.get_thumbnail_from_buffer demo_codec_closed = zeroThumb ∧
     Android.get_preview demo_codec_closed 1 = zeroImage ∧
     Android.get_preview_from_buffer demo_codec_closed 1 = zeroImage ∧
     Windows.get_thumbnail demo_codec_closed = zeroThumb ∧
     Windows.get_preview demo_codec_closed 1 = zeroImage) ∧
    (Android.get_preview demo_codec_nounpack 1 = zeroImage ∧
     Windows.get_preview demo_codec_nounpack 1 = zeroImage) :=
  ⟨(failure_paths_all_zero demo_codec_closed 1).1 rfl,
   (failure_paths_all_zero demo_codec_nounpack 1).2 (Or.inl rfl)⟩

theorem alloc_failure_partial_result_witness :
    ((Android.process_thumbnail demo_codec_oom).data = none ∧
     (Android.process_thumbnail demo_codec_oom).size = demo_thumb.data_size ∧
     (0 < demo_thumb.data_size →
       Android.process_thumbnail demo_codec_oom ≠ zeroThumb)) ∧
    ((Android.process_preview demo_codec_oom 1).data = none ∧
     (Android.process_preview demo_codec_oom 1).size =
       renderedSize demo_codec_oom (preview_params 1) ∧
     (0 < renderedSize demo_codec_oom (preview_params 1) →
       Android.process_preview demo_codec_oom 1 ≠ zeroImage)) ∧
    ((Windows.get_preview demo_codec_oom 1).data = none ∧
     (Windows.get_preview demo_codec_oom 1).size =
       renderedSize demo_codec_oom (preview_params 1)) ∧
    ((thumbnail_fallback demo_codec_oom).data = none ∧
     (thumbnail_fallback demo_codec_oom).size =
       renderedSize demo_codec_oom fallback_params) :=
  ⟨(alloc_failure_partial_result demo_codec_oom demo_thumb 1).1 rfl rfl rfl,
   (alloc_failure_partial_result demo_codec_oom demo_thumb 1).2.1 rfl rfl rfl rfl,
   (alloc_failure_partial_result demo_codec_oom demo_thumb 1).2.2.1
      rfl rfl rfl rfl rfl,
   (alloc_failure_partial_result demo_codec_oom demo_thumb 1).2.2.2 rfl rfl rfl rfl⟩

theorem preview_structural_determinism_witness :
    (Android.get_preview demo_codec 1).width =
      (Android.get_preview demo_codec 1).width ∧
    (Android.get_preview demo_codec 1).height =
      (Android.get_preview demo_codec 1).height ∧
    (Android.get_preview demo_codec 1).size =
      (Android.get_preview demo_codec 1).size :=
  preview_structural_determinism demo_codec demo_codec rfl

theorem unknown_thumb_type_treated_encoded_witness :
    (Android.process_thumbnail demo_codec_unknown).format = 0 ∧
    (Android.process_thumbnail demo_codec_unknown).width = 0 ∧
    (Android.process_thumbnail demo_codec_unknown).height = 0 ∧
    (Android.process_thumbnail demo_codec_unknown).size =
      demo_thumb_unknown.data_size ∧
    (demo_codec_unknown.allocOk demo_thumb_unknown.data_size = true →
      (Android.process_thumbnail demo_codec_unknown).data =
        some demo_thumb_unknown.data) ∧
    (demo_codec_unknown.openOk = true →
      Windows.get_thumbnail demo_codec_unknown =
        Android.process_thumbnail demo_codec_unknown) :=
  unknown_thumb_type_treated_encoded demo_codec_unknown demo_thumb_unknown
    rfl rfl (by decide) (by decide)
